import Mathlib

/-!
Shallow embedding of `gwpy/io/ligolw.py` ("Basic utilities for
reading/writing LIGO_LW-format XML files") for verification of the
module's natural-language specification.

The Python module is glue code around two external libraries
(`ligo.lw` and the legacy `glue.ligolw`).  The external loaders,
serializers and type registries are modelled as parameters; the control
flow of the module's own functions (error-message matching, the single
compatibility retry, the import-function patching, state save/restore,
file-signature sniffing, column type coercion, and the write-target
dispatch) is translated directly from the source.
-/

namespace GwpyLigolw

/-- Single-quote character (ASCII 39), used inside the legacy-schema
error-message patterns. -/
def sq : Char := Char.ofNat 39

/-- Python exception values relevant to this module.
`elementError` models `ligo.lw.ligolw.ElementError` (imported in the
source as `LigolwElementError`); every other exception class is folded
into the remaining constructors. -/
inductive PyExn : Type
  | elementError (msg : List Char)
  | valueError
  | keyError
  | ioError (msg : String)
  | otherError (msg : List Char)
  deriving DecidableEq, Repr

/-- `startsList p s` is Python `s.startswith(p)` on character lists. -/
def startsList : List Char → List Char → Bool
  | [], _ => true
  | _ :: _, [] => false
  | p :: ps, c :: cs => p == c && startsList ps cs

/-- `hasSub p s` holds when `p` occurs as a contiguous substring of `s`;
this is `re.search` for a regex that is a literal string `p`. -/
def hasSub (p : List Char) : List Char → Bool
  | [] => startsList p []
  | c :: cs => startsList p (c :: cs) || hasSub p cs

/-- The five fixed legacy-schema error substrings from `_compat_errors`
(source lines 63-69); the escaped quotes in the Python raw strings are
literal single quotes. -/
def compatErrorPatterns : List (List Char) :=
  [ "invalid Column ".data ++ [sq] ++ "process_id".data ++ [sq]
  , "invalid Column ".data ++ [sq] ++ "coinc_event_id".data ++ [sq]
  , "invalid Column ".data ++ [sq] ++ "coinc_def_id".data ++ [sq]
  , "invalid Column ".data ++ [sq] ++ "event_id".data ++ [sq]
  , "invalid type ".data ++ [sq] ++ "ilwd:char".data ++ [sq] ]

/-- `LIGO_LW_COMPAT_ERROR.search(str(exc))`: the compiled regex is an
alternation of the literal patterns, so a match is exactly an occurrence
of one of them. -/
def ligolwCompatErrorSearch (msg : List Char) : Bool :=
  compatErrorPatterns.any fun p => hasSub p msg

/-- `except LigolwElementError as exc: if LIGO_LW_COMPAT_ERROR.search(str(exc))`:
true exactly for a `ligo.lw` `ElementError` whose message matches one of
the known legacy-schema substrings. -/
def isLigolwCompatError : PyExn → Bool
  | PyExn.elementError msg => ligolwCompatErrorSearch msg
  | _ => false

/-- A parsed LIGO_LW document, abstract except for the empty `Document()`
that `open_xmldoc` creates when a path cannot be opened. -/
inductive Doc : Type
  | parsed (id : Nat)
  | emptyDoc
  deriving DecidableEq, Repr

/-- `read_ligolw` (source lines 243-306), with the external load step
(`load_url` / `ligolw_add`, resolved against `ligo.lw` when the import
function is unpatched and against `glue.ligolw` under
`ilwdchar_compat=True`) abstracted as `load : Bool → Except PyExn Doc`
taking the compatibility flag.  `fuel` bounds the recursion of the
compatibility retry (`read_ligolw(..., ilwdchar_compat=True)` inside the
handler); the second component records the compatibility flag of each
attempted load, in order. -/
def readLigolwFuel (load : Bool → Except PyExn Doc) :
    Nat → Bool → Except PyExn Doc × List Bool
  | 0, _ => (Except.error (PyExn.otherError "maximum recursion depth exceeded".data), [])
  | fuel + 1, compat =>
    match load compat with
    | Except.ok d => (Except.ok d, [compat])
    | Except.error e =>
      if isLigolwCompatError e then
        -- retry once with ilwdchar_compat=True; if that fails for any
        -- reason, fall through and raise the original error
        let retry := readLigolwFuel load fuel true
        match retry.1 with
        | Except.ok d => (Except.ok d, compat :: retry.2)
        | Except.error _ => (Except.error e, compat :: retry.2)
      else (Except.error e, [compat])

/-- `open_xmldoc` on an open file object (source lines 427-475), with
`load_fileobj` abstracted as `load : Bool → Except PyExn Doc` on the
compatibility flag.  The retry goes back to `fobj.name` and reopens it:
`openOk` records whether that `open` succeeds; when it fails the retried
call returns a fresh empty `Document()` (the `except (OSError, IOError)`
branch of the path case) instead of failing.  The second component again
records the compatibility flag of each attempted `load_fileobj`. -/
def openXmldocFuel (load : Bool → Except PyExn Doc) (openOk : Bool) :
    Nat → Bool → Except PyExn Doc × List Bool
  | 0, _ => (Except.error (PyExn.otherError "maximum recursion depth exceeded".data), [])
  | fuel + 1, compat =>
    match load compat with
    | Except.ok d => (Except.ok d, [compat])
    | Except.error e =>
      if isLigolwCompatError e then
        let retry :=
          if openOk then openXmldocFuel load openOk fuel true
          else (Except.ok Doc.emptyDoc, [])
        match retry.1 with
        | Except.ok d => (Except.ok d, compat :: retry.2)
        | Except.error _ => (Except.error e, compat :: retry.2)
      else (Except.error e, [compat])

/-! ## Import hackery (`_real_import`, `_ligolw_compat_import`, `ilwdchar_compat`) -/

/-- The value of `builtins.__import__`: either the real import function
recorded at module load (`_real_import`, source line 52) or the
substitute `_ligolw_compat_import`. -/
inductive ImportFn : Type
  | realImport
  | compatImport
  deriving DecidableEq, Repr

/-- The name rewrite performed by `_ligolw_compat_import` (source lines
75-77): `LIGO_LW_MODULE_REGEX.sub("glue.ligolw", name)` for the compiled
regex `\Aligo.lw`, whose unescaped `.` matches any character except a
newline.  A match therefore consumes seven characters `ligo?lw` anchored
at the start of the name. -/
def ligolwModuleRegexMatch : List Char → Bool
  | 'l' :: 'i' :: 'g' :: 'o' :: c :: 'l' :: 'w' :: _ => c != '\n'
  | _ => false

/-- `_ligolw_compat_import`: rewrite the matched leading seven characters
to `glue.ligolw` and delegate to `_real_import` (modelled here as the
name actually imported). -/
def ligolwCompatImportName (name : String) : String :=
  if ligolwModuleRegexMatch name.data
  then "glue.ligolw" ++ String.mk (name.data.drop 7)
  else name

/-- The body of the `wrapped` closure produced by `ilwdchar_compat`
(source lines 86-102), after `use_compat` has been computed from the
`ilwdchar_compat` keyword argument (or from scanning the arguments for
`glue.ligolw` objects).  State-passing models mutation of the process
global `builtins.__import__`; the wrapped function `body` may read and
mutate that global and may raise.
`try: if use_compat: builtins.__import__ = _ligolw_compat_import;
 return func(*args, **kwargs)
 finally: builtins.__import__ = _real_import`. -/
def ilwdcharCompatRun {α : Type} (useCompat : Bool)
    (body : ImportFn → Except PyExn α × ImportFn) (s : ImportFn) :
    Except PyExn α × ImportFn :=
  let s1 := if useCompat then ImportFn.compatImport else s
  let r := body s1
  (r.1, ImportFn.realImport)

/-- A wrapped-function body that first performs a nested call to another
`ilwdchar_compat`-decorated function and then reports the import
function it observes afterwards. -/
def observeAfterNested {β : Type} (innerFlag : Bool)
    (innerBody : ImportFn → Except PyExn β × ImportFn)
    (s : ImportFn) : Except PyExn ImportFn × ImportFn :=
  let inner := ilwdcharCompatRun innerFlag innerBody s
  (Except.ok inner.2, inner.2)

/-! ## File objects and `is_ligolw` -/

/-- An open file object: a character stream with a position, plus a flag
modelling a stream whose reads raise (e.g. a closed or unreadable
handle), used to exercise the `try/finally` around the sniffing reads. -/
structure FileObj : Type where
  content : List Char
  pos : Nat
  readErr : Bool
  deriving DecidableEq, Repr

/-- One `readline()` step on a character stream: consume up to and
including the first newline at or after `pos` (or the rest of the
stream). -/
def readlineFrom (content : List Char) (pos : Nat) : List Char × Nat :=
  let rest := content.drop pos
  match rest.findIdx? (· = '\n') with
  | some i => (rest.take (i + 1), pos + i + 1)
  | none => (rest, pos + rest.length)

/-- `fileobj.readline()`, raising when the stream is unreadable. -/
def FileObj.readline (f : FileObj) : Except PyExn (List Char) × FileObj :=
  if f.readErr then (Except.error (PyExn.ioError "read of unreadable file"), f)
  else
    let r := readlineFrom f.content f.pos
    (Except.ok r.1, { f with pos := r.2 })

/-- ASCII lowercasing of a line, Python `bytes.lower()`. -/
def lowerLine (l : List Char) : List Char := l.map Char.toLower

/-- `XML_SIGNATURE = b'<?xml'` (source line 55). -/
def XML_SIGNATURE : List Char := "<?xml".data

/-- `LIGOLW_SIGNATURE = b'<!doctype ligo_lw'` (source line 56). -/
def LIGOLW_SIGNATURE : List Char := "<!doctype ligo_lw".data

/-- `LIGOLW_ELEMENT = b'<ligo_lw>'` (source line 57). -/
def LIGOLW_ELEMENT : List Char := "<ligo_lw>".data

/-- The `try` body of `is_ligolw` after `fileobj.seek(0)`: read two
lines, lowercase them, and test the two-line signature
(source lines 739-753; the `except TypeError` branch repeats the same
comparison with decoded `str` signatures, which in this model of one
character type is the same comparison). -/
def isLigolwBody (f : FileObj) : Except PyExn Bool × FileObj :=
  match f.readline with
  | (Except.error e, f1) => (Except.error e, f1)
  | (Except.ok l1, f1) =>
    match f1.readline with
    | (Except.error e, f2) => (Except.error e, f2)
    | (Except.ok l2, f2) =>
      (Except.ok
        (startsList XML_SIGNATURE (lowerLine l1)
          && (startsList LIGOLW_SIGNATURE (lowerLine l2)
              || startsList LIGOLW_ELEMENT (lowerLine l2))), f2)

/-- `is_ligolw` on a non-`None` file object (source lines 735-755):
`loc = fileobj.tell(); fileobj.seek(0); try: ... finally:
fileobj.seek(loc)`. -/
def is_ligolw (f : FileObj) : Except PyExn Bool × FileObj :=
  let loc := f.pos
  let r := isLigolwBody { f with pos := 0 }
  (r.1, { r.2 with pos := loc })

/-- The first line of the stream (from offset 0), as `is_ligolw` reads
it. -/
def fileLine1 (f : FileObj) : List Char := (readlineFrom f.content 0).1

/-- The second line of the stream, as `is_ligolw` reads it. -/
def fileLine2 (f : FileObj) : List Char :=
  (readlineFrom f.content (readlineFrom f.content 0).2).1

/-! ## Column type coercion (`to_table_type`, `_to_ilwd`) -/

/-- Python values passed through the coercion helpers.  `pyilwd` models
a `ligo.lw._ilwd.ilwdchar` instance carrying its table name, column name
and integer value; other object kinds are folded into `pyother`. -/
inductive PyVal : Type
  | pynone
  | pyint (n : Int)
  | pystr (s : String)
  | pyilwd (tableName columnName : String) (n : Int)
  | pyother (tag : Nat)
  deriving DecidableEq, Repr

/-- A LIGO_LW table class as used by `to_table_type`: its
`validcolumns` mapping from column name to declared LIGO_LW type string,
and its `tableName`.  (`_is_glue_ligolw_object(cls)` only selects which
library the `ilwd` helpers are imported from and does not change the
value-level behaviour modelled here.) -/
structure TableClass : Type where
  validcolumns : String → Option String
  tableName : String

/-- The external type registries used by `to_table_type`:
`ligo.lw.types.ToNumPyType`, `numpy.sctypeDict` (composed with calling
the resulting numpy scalar type on the value), and
`ligo.lw.types.ToPyType` (composed with calling the python type). -/
structure CastMaps : Type where
  ToNumPyType : String → Option String
  sctypeDict : String → Option (PyVal → PyVal)
  ToPyType : String → Option (PyVal → PyVal)

/-- `_to_ilwd` (source lines 714-726) with the generic string
constructor `ilwdchar(value)` abstracted as `ilwdcharOf`:
raise `ValueError` for an `ilwdchar` of a different column, return an
`ilwdchar` of the right column untouched, build
`get_ilwdchar_class(tablename, colname)(value)` for an `Integral`, and
otherwise parse via `ilwdchar(value)`. -/
def to_ilwd (ilwdcharOf : PyVal → Except PyExn PyVal)
    (value : PyVal) (tablename colname : String) : Except PyExn PyVal :=
  match value with
  | PyVal.pyilwd t c n =>
    if c ≠ colname then Except.error PyExn.valueError
    else Except.ok (PyVal.pyilwd t c n)
  | PyVal.pyint n => Except.ok (PyVal.pyilwd tablename colname n)
  | v => ilwdcharOf v

/-- `to_table_type` (source lines 650-711): return `val` unmodified when
it is `None` or `colname` has no entry in `cls.validcolumns`; dispatch
declared type `'ilwd:char'` to `_to_ilwd`; otherwise
`try: return numpy.sctypeDict[ToNumPyType[llwtype]](val)
 except KeyError: return ToPyType[llwtype](val)` (a missing `ToPyType`
entry would propagate `KeyError`). -/
def to_table_type (maps : CastMaps) (ilwdcharOf : PyVal → Except PyExn PyVal)
    (val : PyVal) (cls : TableClass) (colname : String) : Except PyExn PyVal :=
  match val with
  | PyVal.pynone => Except.ok PyVal.pynone
  | v =>
    match cls.validcolumns colname with
    | none => Except.ok v
    | some llwtype =>
      if llwtype = "ilwd:char" then to_ilwd ilwdcharOf v cls.tableName colname
      else
        match (maps.ToNumPyType llwtype).bind maps.sctypeDict with
        | some f => Except.ok (f v)
        | none =>
          match maps.ToPyType llwtype with
          | some g => Except.ok (g v)
          | none => Except.error PyExn.keyError

/-! ## `read_ligolw`'s temporary remapping of `ligo.lw.types.ToPyType` -/

/-- The mutable state of the `ligo.lw.types` module: its `ToPyType` and
`ToNumPyType` registries. -/
structure LigolwTypes : Type where
  ToPyType : String → Option (PyVal → PyVal)
  ToNumPyType : String → Option String

/-- The loop at source lines 268-272:
`for key in types.ToPyType: if key in types.ToNumPyType:
 types.ToPyType[key] = numpy.dtype(types.ToNumPyType[key]).type`,
with `numpy.dtype(...).type` abstracted as `dtypeType`. -/
def remapToPyType (dtypeType : String → PyVal → PyVal) (tm : LigolwTypes) :
    String → Option (PyVal → PyVal) :=
  fun k =>
    match tm.ToPyType k, tm.ToNumPyType k with
    | some _, some nt => some (dtypeType nt)
    | v, _ => v

/-- `read_ligolw`'s handling of `ligo.lw.types.ToPyType` (source lines
268-272 and 305-306): copy the registry, remap the copy's keys that also
appear in `ToNumPyType` to numpy dtypes, run the load against the
remapped state, and in the `finally` clause reassign the saved copy,
whether the load returned or raised. -/
def readLigolwTypesState (dtypeType : String → PyVal → PyVal)
    (load : LigolwTypes → Except PyExn Doc) (tm : LigolwTypes) :
    Except PyExn Doc × LigolwTypes :=
  let topytype := tm.ToPyType
  let tm2 : LigolwTypes := { tm with ToPyType := remapToPyType dtypeType tm }
  let r := load tm2
  (r, { tm2 with ToPyType := topytype })

/-! ## `write_tables` -/

/-- A filesystem: a map from path to file content. -/
structure FS : Type where
  files : String → Option String

/-- A `write_tables` target: an XML `Document`/`LIGO_LW` element, an
open file-like object (with its `.name`), or a filesystem path. -/
inductive WTarget : Type
  | xmlDoc (d : Doc)
  | fileLike (name : String)
  | path (p : String)

/-- The path a `write_tables` call serializes to, per the
`isinstance(target, FILE_LIKE)` dispatch at source lines 585-590
(`str()` of a `Document` target is modelled as an opaque name). -/
def writeTargetName : WTarget → String
  | WTarget.xmlDoc _ => "<Document>"
  | WTarget.fileLike name => name
  | WTarget.path p => p

/-- `write_tables` (source lines 536-599), with the external pieces as
parameters: `parseDoc` is the `open_xmldoc` load of an existing file's
content for `append=True`, `wtd` is `write_tables_to_document`, and
`render` is the `ligo.lw` serializer used by
`write_fileobj`/`write_filename`.  Branch order follows the source:
an XML target is used directly; `append=True` opens the existing
document (or a new empty one when the path cannot be opened);
otherwise, with `overwrite=False`, an existing path target raises
`IOError("File exists: ...")` before anything is written; else a new
empty `Document` is created.  On success the serialized document is
written to the target. -/
def write_tables_fs (parseDoc : String → Doc) (wtd : Doc → List Nat → Bool → Doc)
    (render : Doc → String) (fs : FS) (target : WTarget) (tables : List Nat)
    (append overwrite : Bool) : Except PyExn Unit × FS :=
  let xmldocE : Except PyExn Doc :=
    match target with
    | WTarget.xmlDoc d => Except.ok d
    | t =>
      if append then
        Except.ok
          (match t with
           | WTarget.path p =>
             (match fs.files p with
              | some c => parseDoc c
              | none => Doc.emptyDoc)
           | _ => Doc.emptyDoc)
      else
        match t with
        | WTarget.path p =>
          if !overwrite && (fs.files p).isSome
          then Except.error (PyExn.ioError ("File exists: " ++ p))
          else Except.ok Doc.emptyDoc
        | _ => Except.ok Doc.emptyDoc
  match xmldocE with
  | Except.error e => (Except.error e, fs)
  | Except.ok xmldoc =>
    let out := wtd xmldoc tables overwrite
    let name := writeTargetName target
    (Except.ok (),
     { files := fun q => if q = name then some (render out) else fs.files q })

/-! ## Theorems -/

/-- C2: For every call to a function decorated with `ilwdchar_compat`,
whether the wrapped function returns normally or raises, after the call
completes `builtins.__import__` is restored to the original import
function recorded at module load (`_real_import`); the substitution is
in effect at most for the duration of the single call. -/
theorem ilwdchar_compat_restores_real_import {α : Type} (useCompat : Bool)
    (body : ImportFn → Except PyExn α × ImportFn) (s : ImportFn) :
    (ilwdcharCompatRun useCompat body s).2 = ImportFn.realImport := rfl

/-- C7: The import patching mutates the process-wide global
`builtins.__import__`, so a nested call to an `ilwdchar_compat`-decorated
function clobbers the outer call's substitution: an outer call made with
the compatibility substitution active observes, after any nested
decorated call returns, the real import function instead of the
compatibility one. -/
theorem ilwdchar_compat_nested_calls_clobber {β : Type} (innerFlag : Bool)
    (innerBody : ImportFn → Except PyExn β × ImportFn) (s : ImportFn) :
    (ilwdcharCompatRun true (observeAfterNested innerFlag innerBody) s).1
        = Except.ok ImportFn.realImport
      ∧ ImportFn.realImport ≠ ImportFn.compatImport :=
  ⟨rfl, by simp⟩

/-- C9: `is_ligolw` restores the file object's read position: after the
call the position equals the position before the call, whether the
sniffing reads succeeded or raised. -/
theorem is_ligolw_restores_position (f : FileObj) :
    ((is_ligolw f).2).pos = f.pos := rfl

/-- C8: `read_ligolw` runs the load against a `ToPyType` registry whose
entries with a `ToNumPyType` counterpart are remapped to numpy dtypes,
and on every exit (normal return or exception) reinstates a registry
state equal to the one that existed before the call. -/
theorem read_ligolw_restores_ToPyType (dtypeType : String → PyVal → PyVal)
    (load : LigolwTypes → Except PyExn Doc) (tm : LigolwTypes) :
    (readLigolwTypesState dtypeType load tm).2 = tm
      ∧ (readLigolwTypesState dtypeType load tm).1
          = load { tm with ToPyType := remapToPyType dtypeType tm }
      ∧ ∀ k c nt, tm.ToPyType k = some c → tm.ToNumPyType k = some nt →
          remapToPyType dtypeType tm k = some (dtypeType nt) := by
  refine ⟨rfl, rfl, ?_⟩
  intro k c nt h1 h2
  simp [remapToPyType, h1, h2]

/-- Witness for C8 at a concrete registry, dtype table and load. -/
theorem read_ligolw_restores_ToPyType_witness :
    remapToPyType (fun _ _ => PyVal.pyint 1)
        ⟨fun k => if k = "int_4s" then some (fun _ => PyVal.pyint 0) else none,
         fun k => if k = "int_4s" then some "int32" else none⟩ "int_4s"
      = some ((fun _ _ => PyVal.pyint 1) "int32") :=
  (read_ligolw_restores_ToPyType (fun _ _ => PyVal.pyint 1)
      (fun _ => Except.ok Doc.emptyDoc)
      ⟨fun k => if k = "int_4s" then some (fun _ => PyVal.pyint 0) else none,
       fun k => if k = "int_4s" then some "int32" else none⟩).2.2
    "int_4s" (fun _ => PyVal.pyint 0) "int32" (by simp) (by simp)

/-- C10: `write_tables` on a filesystem path that already exists, with
`append=False` and `overwrite=False`, raises
`IOError("File exists: ...")` and leaves the filesystem (in particular
the existing file) unmodified. -/
theorem write_tables_existing_path_raises (parseDoc : String → Doc)
    (wtd : Doc → List Nat → Bool → Doc) (render : Doc → String)
    (fs : FS) (p : String) (tables : List Nat)
    (h : (fs.files p).isSome = true) :
    write_tables_fs parseDoc wtd render fs (WTarget.path p) tables false false
      = (Except.error (PyExn.ioError ("File exists: " ++ p)), fs) := by
  simp [write_tables_fs, h]

/-- Witness for C10 at a concrete filesystem and path. -/
theorem write_tables_existing_path_raises_witness :
    write_tables_fs (fun _ => Doc.emptyDoc) (fun d _ _ => d) (fun _ => "new")
        ⟨fun q => if q = "out.xml" then some "old" else none⟩
        (WTarget.path "out.xml") [] false false
      = (Except.error (PyExn.ioError ("File exists: " ++ "out.xml")),
         ⟨fun q => if q = "out.xml" then some "old" else none⟩) :=
  write_tables_existing_path_raises (fun _ => Doc.emptyDoc) (fun d _ _ => d)
    (fun _ => "new") ⟨fun q => if q = "out.xml" then some "old" else none⟩
    "out.xml" [] (by simp)

/-- C3: On a readable file object, `is_ligolw` reports LIGO_LW format
exactly when the first line, lowercased, starts with `<?xml` and the
second line, lowercased, starts with `<!doctype ligo_lw` or
`<ligo_lw>`. -/
theorem is_ligolw_iff_signature (f : FileObj) (h : f.readErr = false) :
    (is_ligolw f).1 = Except.ok true ↔
      startsList XML_SIGNATURE (lowerLine (fileLine1 f)) = true
        ∧ (startsList LIGOLW_SIGNATURE (lowerLine (fileLine2 f)) = true
           ∨ startsList LIGOLW_ELEMENT (lowerLine (fileLine2 f)) = true) := by
  simp [is_ligolw, isLigolwBody, FileObj.readline, h, fileLine1, fileLine2,
    Bool.and_eq_true, Bool.or_eq_true]

/-- Witness for C3 on a concrete two-line LIGO_LW file whose signature
uses mixed case and whose position is away from the start. -/
theorem is_ligolw_iff_signature_witness :
    (is_ligolw ⟨"<?XML version=1.0\n<LIGO_LW>\n".data, 5, false⟩).1
      = Except.ok true :=
  (is_ligolw_iff_signature ⟨"<?XML version=1.0\n<LIGO_LW>\n".data, 5, false⟩
    rfl).mpr (by decide)

/-- Counterexample to C6 as stated: the compiled pattern `\Aligo.lw`
has an unescaped `.`, so the module name `ligo-lw`, which does not begin
with the prefix `ligo.lw`, is nevertheless rewritten rather than passed
through unchanged. -/
theorem ligolw_compat_import_not_prefix_based :
    ligolwCompatImportName "ligo-lw" ≠ "ligo-lw"
      ∧ startsList "ligo.lw".data "ligo-lw".data = false := by
  constructor
  · decide
  · decide

/-- Helper: a name that literally begins with `ligo.lw` matches the
regex `\Aligo.lw` (the `.` matches the literal dot). -/
theorem startsList_ligolw_regex (l : List Char)
    (h : startsList "ligo.lw".data l = true) :
    ligolwModuleRegexMatch l = true := by
  have hd : "ligo.lw".data = ['l', 'i', 'g', 'o', '.', 'l', 'w'] := rfl
  rw [hd] at h
  rcases l with _ | ⟨a, _ | ⟨b, _ | ⟨c, _ | ⟨d, _ | ⟨e, _ | ⟨x, _ | ⟨y, rest⟩⟩⟩⟩⟩⟩⟩ <;>
    simp [startsList] at h
  obtain ⟨ha, hb, hc, hdd, he, hx, hy⟩ := h
  subst ha hb hc hdd he hx hy
  rfl

/-- C6 (amended): while the compatibility substitution is active, a
module name matching the anchored pattern `\Aligo.lw` — the four
characters `ligo`, then any single character other than a newline, then
`lw`, at the start of the name — has that seven-character match replaced
by `glue.ligolw` before delegation to the real import function; names
not matching the pattern are passed through unchanged.  In particular
every name literally beginning with `ligo.lw` is redirected to the
corresponding `glue.ligolw` name. -/
theorem ligolw_compat_import_rewrite (name : String) :
    (ligolwModuleRegexMatch name.data = true →
      ligolwCompatImportName name = "glue.ligolw" ++ String.mk (name.data.drop 7))
      ∧ (ligolwModuleRegexMatch name.data = false →
        ligolwCompatImportName name = name)
      ∧ (startsList "ligo.lw".data name.data = true →
        ligolwCompatImportName name
          = "glue.ligolw" ++ String.mk (name.data.drop 7)) := by
  refine ⟨fun h => ?_, fun h => ?_, fun h => ?_⟩
  · simp [ligolwCompatImportName, h]
  · simp [ligolwCompatImportName, h]
  · simp [ligolwCompatImportName, startsList_ligolw_regex name.data h]

/-- Witness for C6 (amended): a `ligo.lw` name is redirected into
`glue.ligolw`, and an unrelated name is imported unchanged. -/
theorem ligolw_compat_import_rewrite_witness :
    ligolwCompatImportName "ligo.lw.types" = "glue.ligolw.types"
      ∧ ligolwCompatImportName "numpy" = "numpy" :=
  ⟨((ligolw_compat_import_rewrite "ligo.lw.types").2.2 (by decide)).trans
      (by decide),
   (ligolw_compat_import_rewrite "numpy").2.1 (by decide)⟩

/-- Helper: when the compatibility load always raises, a
compatibility-mode `read_ligolw` call ends in an error for any recursion
budget. -/
theorem readLigolwFuel_compat_error (load : Bool → Except PyExn Doc)
    (e1 : PyExn) (h : load true = Except.error e1) :
    ∀ n, ∃ e2, (readLigolwFuel load n true).1 = Except.error e2 := by
  intro n
  induction n with
  | zero => exact ⟨_, rfl⟩
  | succ n ih =>
    obtain ⟨e2, ih⟩ := ih
    by_cases hc : isLigolwCompatError e1 = true
    · exact ⟨e1, by simp [readLigolwFuel, h, hc, ih]⟩
    · exact ⟨e1, by simp [readLigolwFuel, h, hc]⟩

/-- Helper: the same for a compatibility-mode `open_xmldoc` call whose
reopen of `fobj.name` succeeds. -/
theorem openXmldocFuel_compat_error (load : Bool → Except PyExn Doc)
    (e1 : PyExn) (h : load true = Except.error e1) :
    ∀ n, ∃ e2, (openXmldocFuel load true n true).1 = Except.error e2 := by
  intro n
  induction n with
  | zero => exact ⟨_, rfl⟩
  | succ n ih =>
    obtain ⟨e2, ih⟩ := ih
    by_cases hc : isLigolwCompatError e1 = true
    · exact ⟨e1, by simp [openXmldocFuel, h, hc, ih]⟩
    · exact ⟨e1, by simp [openXmldocFuel, h, hc]⟩

/-- C1: when the first load inside `read_ligolw`, or inside
`open_xmldoc` on a file object, raises a `ligo.lw` `ElementError` whose
message matches one of the known legacy-schema substrings, the function
performs exactly one further load, with `ilwdchar_compat=True`, before
giving up: the sequence of attempted loads is `[False, True]`.  (The
hypothesis on the compatibility load reflects that it runs the
`glue.ligolw` loader, whose errors are not instances of the `ligo.lw`
`ElementError` class caught by the handler.) -/
theorem legacy_error_retries_exactly_once (load : Bool → Except PyExn Doc)
    (e : PyExn) (n : Nat) (h1 : load false = Except.error e)
    (h2 : isLigolwCompatError e = true)
    (h3 : ∀ e2, load true = Except.error e2 → isLigolwCompatError e2 = false) :
    (readLigolwFuel load (n + 2) false).2 = [false, true]
      ∧ (openXmldocFuel load true (n + 2) false).2 = [false, true] := by
  cases hr : load true with
  | ok d =>
    constructor
    · simp [readLigolwFuel, h1, h2, hr]
    · simp [openXmldocFuel, h1, h2, hr]
  | error e2 =>
    have hc := h3 e2 hr
    constructor
    · simp [readLigolwFuel, h1, h2, hr, hc]
    · simp [openXmldocFuel, h1, h2, hr, hc]

/-- Concrete loader for the C1 witness: the plain load raises a
legacy-schema `ElementError`, the compatibility load succeeds. -/
def loadLegacyOk : Bool → Except PyExn Doc := fun compat =>
  if compat then Except.ok (Doc.parsed 1)
  else Except.error
    (PyExn.elementError ("invalid type ".data ++ [sq] ++ "ilwd:char".data ++ [sq]))

/-- Witness for C1 at the concrete loader. -/
theorem legacy_error_retries_exactly_once_witness :
    (readLigolwFuel loadLegacyOk 2 false).2 = [false, true]
      ∧ (openXmldocFuel loadLegacyOk true 2 false).2 = [false, true] :=
  legacy_error_retries_exactly_once loadLegacyOk _ 0 rfl (by decide)
    (fun e2 h => Except.noConfusion h)

/-- C5: when the first load raises a `ligo.lw` `ElementError` whose
message does not match any known legacy-schema substring, no retry is
attempted and the original exception is re-raised; and when the message
does match but the single compatibility retry fails for any reason, the
original exception — not the retry's — is re-raised.  Both hold for
`read_ligolw` and for `open_xmldoc` on a file object. -/
theorem failed_retry_reraises_original (load : Bool → Except PyExn Doc)
    (e : PyExn) (n : Nat) (h1 : load false = Except.error e) :
    (isLigolwCompatError e = false →
      (readLigolwFuel load (n + 1) false).1 = Except.error e
        ∧ (readLigolwFuel load (n + 1) false).2 = [false]
        ∧ (openXmldocFuel load true (n + 1) false).1 = Except.error e)
      ∧ ∀ e1, isLigolwCompatError e = true → load true = Except.error e1 →
        (readLigolwFuel load (n + 2) false).1 = Except.error e
          ∧ (openXmldocFuel load true (n + 2) false).1 = Except.error e := by
  constructor
  · intro hc
    refine ⟨?_, ?_, ?_⟩
    · simp [readLigolwFuel, h1, hc]
    · simp [readLigolwFuel, h1, hc]
    · simp [openXmldocFuel, h1, hc]
  · intro e1 hc hr
    obtain ⟨e2, hread⟩ := readLigolwFuel_compat_error load e1 hr n
    obtain ⟨e3, hopen⟩ := openXmldocFuel_compat_error load e1 hr n
    by_cases hc1 : isLigolwCompatError e1 = true
    · constructor
      · simp [readLigolwFuel, h1, hc, hr, hc1, hread]
      · simp [openXmldocFuel, h1, hc, hr, hc1, hopen]
    · constructor
      · simp [readLigolwFuel, h1, hc, hr, hc1]
      · simp [openXmldocFuel, h1, hc, hr, hc1]

/-- Concrete loader for the C5 witness: the plain load raises a
legacy-schema `ElementError` and the compatibility load fails with an
unrelated error. -/
def loadLegacyBad : Bool → Except PyExn Doc := fun compat =>
  if compat then Except.error (PyExn.otherError "glue load failed".data)
  else Except.error
    (PyExn.elementError
      ("invalid Column ".data ++ [sq] ++ "process_id".data ++ [sq]))

/-- Witness for C5 at the concrete loader: the caller sees the original
`ElementError`, not the retry's failure. -/
theorem failed_retry_reraises_original_witness :
    (readLigolwFuel loadLegacyBad 2 false).1
        = Except.error
            (PyExn.elementError
              ("invalid Column ".data ++ [sq] ++ "process_id".data ++ [sq]))
      ∧ (openXmldocFuel loadLegacyBad true 2 false).1
        = Except.error
            (PyExn.elementError
              ("invalid Column ".data ++ [sq] ++ "process_id".data ++ [sq])) :=
  (failed_retry_reraises_original loadLegacyBad _ 0 rfl).2
    (PyExn.otherError "glue load failed".data) (by decide) rfl

/-- C4: `to_table_type` returns the value unmodified when it is `None`
or the column has no entry in `cls.validcolumns`; for a column of
declared type `'ilwd:char'` it converts an integer to the legacy
`ilwdchar` identifier of the column (and leaves an already-formatted
`ilwdchar` for the same column untouched); for any other declared type
it casts with the numpy scalar type mapped from the declared type,
falling back to the mapped python type when the numpy lookup fails. -/
theorem to_table_type_dispatch (maps : CastMaps)
    (iof : PyVal → Except PyExn PyVal) (cls : TableClass) (colname : String) :
    (∀ val, cls.validcolumns colname = none →
        to_table_type maps iof val cls colname = Except.ok val)
      ∧ to_table_type maps iof PyVal.pynone cls colname
          = Except.ok PyVal.pynone
      ∧ (cls.validcolumns colname = some "ilwd:char" →
        (∀ n, to_table_type maps iof (PyVal.pyint n) cls colname
            = Except.ok (PyVal.pyilwd cls.tableName colname n))
          ∧ ∀ t n, to_table_type maps iof (PyVal.pyilwd t colname n) cls colname
              = Except.ok (PyVal.pyilwd t colname n))
      ∧ (∀ llwtype nt f val, cls.validcolumns colname = some llwtype →
        llwtype ≠ "ilwd:char" → maps.ToNumPyType llwtype = some nt →
        maps.sctypeDict nt = some f → val ≠ PyVal.pynone →
        to_table_type maps iof val cls colname = Except.ok (f val))
      ∧ ∀ llwtype g val, cls.validcolumns colname = some llwtype →
        llwtype ≠ "ilwd:char" →
        (maps.ToNumPyType llwtype).bind maps.sctypeDict = none →
        maps.ToPyType llwtype = some g → val ≠ PyVal.pynone →
        to_table_type maps iof val cls colname = Except.ok (g val) := by
  refine ⟨?_, rfl, ?_, ?_, ?_⟩
  · intro val h
    cases val <;> simp [to_table_type, h]
  · intro h
    exact ⟨fun n => by simp [to_table_type, h, to_ilwd],
      fun t n => by simp [to_table_type, h, to_ilwd]⟩
  · intro llwtype nt f val h hne hnt hf hval
    cases val <;> simp_all [to_table_type, hne, hnt, hf]
  · intro llwtype g val h hne hb hg hval
    cases val <;>
      first
        | exact absurd rfl hval
        | (simp only [to_table_type, h]; rw [if_neg hne, hb]; simp [hg])

/-- Concrete table class for the C4 witness: one legacy identifier
column and one `real_4` column. -/
def tableClassW : TableClass :=
  ⟨fun c =>
    if c = "process_id" then some "ilwd:char"
    else if c = "snr" then some "real_4" else none, "sngl_burst"⟩

/-- Concrete external type registries for the C4 witness. -/
def castMapsW : CastMaps :=
  ⟨fun t => if t = "real_4" then some "float32" else none,
   fun s => if s = "float32" then some (fun v => v) else none,
   fun _ => none⟩

/-- Witness for C4: an integer in an `ilwd:char` column becomes the
column's identifier, and a value in a `real_4` column goes through the
numpy cast. -/
theorem to_table_type_dispatch_witness :
    to_table_type castMapsW Except.ok (PyVal.pyint 1) tableClassW "process_id"
        = Except.ok (PyVal.pyilwd "sngl_burst" "process_id" 1)
      ∧ to_table_type castMapsW Except.ok (PyVal.pyint 7) tableClassW "snr"
        = Except.ok ((fun v => v) (PyVal.pyint 7)) :=
  ⟨((to_table_type_dispatch castMapsW Except.ok tableClassW
      "process_id").2.2.1 (by simp [tableClassW])).1 1,
   (to_table_type_dispatch castMapsW Except.ok tableClassW "snr").2.2.2.1
     "real_4" "float32" (fun v => v) (PyVal.pyint 7) (by simp [tableClassW])
     (by simp) (by simp [castMapsW]) (by simp [castMapsW]) (by simp)⟩

end GwpyLigolw
